import Mathlib

/-!
Shallow embedding of the `ml-production-demo` churn-prediction repository,
with theorems checking the natural-language specification against the code.

The embedding covers:
* the prediction HTTP service (`src/inference/main.py`, `src/inference/schemas.py`),
* the serving-side model loader (`src/inference/utils.py`),
* the generic GCS loader (`src/inference/fastapi-inference/gcs_loader.py`),
* the training-side configuration validation (`src/trainer/validation.py`),
* the standalone registry-pull publisher (`src/scripts/upload_model_to_gcs.py`),
* the neural-network trainer's scaling step (`src/eda/pytorch_trainer.py`).

Machine floats are embedded as rationals; Python strings used in path
manipulation are embedded as `List Char` so that splitting and slicing can be
reasoned about by induction; JSON request bodies are embedded as an explicit
inductive type.
-/

/-! ## JSON values and the request schema (`src/inference/schemas.py`)

A JSON document, as received by the HTTP layer.  Numbers are embedded as
rationals (JSON numbers are decimal literals).
-/

inductive Json where
  | null : Json
  | bool (b : Bool) : Json
  | num (q : ℚ) : Json
  | str (s : String) : Json
  | arr (elems : List Json) : Json
  | obj (fields : List (String × Json)) : Json

/-- Field lookup in a JSON object (first binding wins). -/
def getField (o : List (String × Json)) (k : String) : Option Json :=
  (o.find? (fun p => p.1 == k)).map (fun p => p.2)

/-- Modelled from the spec: the schema-validation library's handling of a
`float`-typed field — "the five numeric features accept any real number";
a JSON value of any other kind is a wrong type and fails validation. -/
def parseFloatField (o : List (String × Json)) (k : String) : Option ℚ :=
  match getField o k with
  | some (Json.num q) => some q
  | _ => none

/-- Modelled from the spec: an `int`-typed field accepts an integral JSON
number; any other kind of value is a wrong type and fails validation. -/
def parseIntField (o : List (String × Json)) (k : String) : Option ℤ :=
  match getField o k with
  | some (Json.num q) => if q.den = 1 then some q.num else none
  | _ => none

/-- An `int` field with `Field(ge=lo, le=hi)` bounds, as declared in
`PredictionInput` (`src/inference/schemas.py`). -/
def parseBoundedIntField (o : List (String × Json)) (k : String) (lo hi : ℤ) : Option ℤ :=
  match parseIntField o k with
  | some n => if lo ≤ n ∧ n ≤ hi then some n else none
  | none => none

/-- `PredictionInput` from `src/inference/schemas.py`. -/
structure PredictionInput where
  f_0 : ℚ
  f_1 : ℚ
  f_2 : ℚ
  f_3 : ℚ
  f_4 : ℚ
  months_since_signup : ℤ
  calendar_month : ℤ
  signup_month : ℤ
  is_first_month : ℤ
deriving DecidableEq

/-- The required fields of `PredictionInput`, in declaration order. -/
def requiredFields : List String :=
  ["f_0", "f_1", "f_2", "f_3", "f_4", "months_since_signup",
   "calendar_month", "signup_month", "is_first_month"]

/-- All fields of a `PredictionInput` body parse (present, well-typed,
in range).  Mirrors the declared schema: `f_0..f_4 : float`,
`months_since_signup : int`, `calendar_month, signup_month : int ∈ [1,12]`,
`is_first_month : int ∈ [0,1]`. -/
abbrev fieldsPresent (o : List (String × Json)) : Prop :=
  (parseFloatField o "f_0").isSome = true ∧
  (parseFloatField o "f_1").isSome = true ∧
  (parseFloatField o "f_2").isSome = true ∧
  (parseFloatField o "f_3").isSome = true ∧
  (parseFloatField o "f_4").isSome = true ∧
  (parseIntField o "months_since_signup").isSome = true ∧
  (parseBoundedIntField o "calendar_month" 1 12).isSome = true ∧
  (parseBoundedIntField o "signup_month" 1 12).isSome = true ∧
  (parseBoundedIntField o "is_first_month" 0 1).isSome = true

/-- Modelled from the spec: the schema-validation library validates every
declared field of the request body independently and constructs the record
exactly when all fields pass; any missing field, wrong type, or out-of-range
value fails the whole body. -/
def validatePredictionInput (j : Json) : Option PredictionInput :=
  match j with
  | Json.obj o =>
    if h : fieldsPresent o then
      some
        { f_0 := (parseFloatField o "f_0").get h.1
          f_1 := (parseFloatField o "f_1").get h.2.1
          f_2 := (parseFloatField o "f_2").get h.2.2.1
          f_3 := (parseFloatField o "f_3").get h.2.2.2.1
          f_4 := (parseFloatField o "f_4").get h.2.2.2.2.1
          months_since_signup := (parseIntField o "months_since_signup").get h.2.2.2.2.2.1
          calendar_month := (parseBoundedIntField o "calendar_month" 1 12).get h.2.2.2.2.2.2.1
          signup_month := (parseBoundedIntField o "signup_month" 1 12).get h.2.2.2.2.2.2.2.1
          is_first_month := (parseBoundedIntField o "is_first_month" 0 1).get h.2.2.2.2.2.2.2.2 }
    else none
  | _ => none

/-- The body of `POST /predict/batch` is declared as `List[PredictionInput]`
(`src/inference/main.py` line 87): it must be a bare JSON array whose every
element validates; any other JSON shape fails body validation. -/
def validateBatchBody (j : Json) : Option (List PredictionInput) :=
  match j with
  | Json.arr elems => elems.mapM validatePredictionInput
  | _ => none

lemma validatePredictionInput_obj_eq_none_iff (o : List (String × Json)) :
    validatePredictionInput (Json.obj o) = none ↔ ¬ fieldsPresent o := by
  by_cases h : fieldsPresent o <;> simp [validatePredictionInput, h]

/-! ## The loaded model and the prediction handlers (`src/inference/main.py`) -/

/-- Modelled from the spec: a loaded boosted-tree ensemble (the boosted-tree
library is external to the repository).  Scoring a row either raises (the
service catches any exception) or returns a probability, which for the binary
churn classifier lies in `[0,1]`. -/
structure Booster where
  score : PredictionInput → Except String ℚ
  score_range : ∀ x p, score x = Except.ok p → 0 ≤ p ∧ p ≤ 1

/-- Batch scoring: one scoring call over all rows, producing one probability
per row in input order (`model.predict(dmatrix)` on the stacked frame). -/
def Booster.scoreBatch (m : Booster) (xs : List PredictionInput) : Except String (List ℚ) :=
  xs.mapM m.score

/-- `PredictionOutput` from `src/inference/schemas.py`. -/
structure PredictionOutput where
  churn_probability : ℚ
  churn_prediction : ℤ
  model_version : String
deriving DecidableEq

/-- The visible outcome of one HTTP request to the service. -/
inductive ApiResponse where
  | validationError : ApiResponse
  | httpError (status : ℕ) (detail : String) : ApiResponse
  | single (out : PredictionOutput) : ApiResponse
  | batch (outs : List PredictionOutput) : ApiResponse
deriving DecidableEq

/-- HTTP status code of a response (422 for request-validation failures). -/
def ApiResponse.status : ApiResponse → ℕ
  | ApiResponse.validationError => 422
  | ApiResponse.httpError s _ => s
  | ApiResponse.single _ => 200
  | ApiResponse.batch _ => 200

/-- The process-wide globals `model` and `model_version` of
`src/inference/main.py`, written once at startup. -/
structure ServerState where
  model : Option Booster
  model_version : Option String

namespace Inference

/-- `predict` (`src/inference/main.py` lines 61-83).  The framework validates
the body against `PredictionInput` before the handler runs (422, model not
invoked); the handler then returns 503 if no model is loaded, 500 carrying the
error text if scoring raises, and otherwise the probability, the thresholded
decision `int(p >= 0.5)`, and the global version label.  The second component
records whether the loaded model was invoked. -/
def predict (st : ServerState) (body : Json) : ApiResponse × Bool :=
  match validatePredictionInput body with
  | none => (ApiResponse.validationError, false)
  | some input_data =>
    match st.model with
    | none => (ApiResponse.httpError 503 "Model not loaded", false)
    | some m =>
      match m.score input_data with
      | Except.error e => (ApiResponse.httpError 500 e, true)
      | Except.ok p =>
        (ApiResponse.single
          { churn_probability := p
            churn_prediction := if (1 : ℚ)/2 ≤ p then 1 else 0
            model_version := st.model_version.getD "" }, true)

/-- `predict_batch` (`src/inference/main.py` lines 86-113).  The body is
declared `List[PredictionInput]`; on success each probability is paired with
its thresholded decision, in input order. -/
def predict_batch (st : ServerState) (body : Json) : ApiResponse × Bool :=
  match validateBatchBody body with
  | none => (ApiResponse.validationError, false)
  | some inputs =>
    match st.model with
    | none => (ApiResponse.httpError 503 "Model not loaded", false)
    | some m =>
      match m.scoreBatch inputs with
      | Except.error e => (ApiResponse.httpError 500 e, true)
      | Except.ok probs =>
        (ApiResponse.batch
          (probs.map (fun p =>
            { churn_probability := p
              churn_prediction := if (1 : ℚ)/2 ≤ p then 1 else 0
              model_version := st.model_version.getD "" })), true)

end Inference

/-! ## Training-side configuration validation (`src/trainer/validation.py`) -/

namespace TrainerValidation

/-- The `Field(gt=0, lt=1)` constraints on `test_frac` and `val_frac` of
`DataConfig`. -/
def fractionFieldOk (v : ℚ) : Bool := decide (0 < v) && decide (v < 1)

/-- `DataConfig.validate_fraction`: `if v > 0.5: raise`. -/
def validate_fraction (v : ℚ) : Bool := !decide (v > 1/2)

/-- All `DataConfig` field and validator checks: both fractions pass their
field constraints and the 0.5 cap, and `random_state >= 0`. -/
def dataConfigOk (test_frac val_frac : ℚ) (random_state : ℤ) : Bool :=
  fractionFieldOk test_frac && validate_fraction test_frac &&
  fractionFieldOk val_frac && validate_fraction val_frac &&
  decide (0 ≤ random_state)

/-- `Config.validate_data_splits`: `test_frac + val_frac >= 1.0` raises. -/
def validate_data_splits (test_frac val_frac : ℚ) : Bool :=
  decide (test_frac + val_frac < 1)

/-- The complete data-split validation performed by `load_config` on the
`data:` section: `DataConfig` validation followed by the cross-field check. -/
def configDataOk (test_frac val_frac : ℚ) (random_state : ℤ) : Bool :=
  dataConfigOk test_frac val_frac random_state && validate_data_splits test_frac val_frac

end TrainerValidation

/-! ## Object storage, path strings, and the two cloud model loaders

Python strings involved in path surgery are embedded as `List Char`.
A bucket is a list of objects (blobs); "directories" are only simulated by
trailing-slash marker objects.
-/

/-- One object in a storage bucket. -/
structure Blob where
  name : List Char
  content : String
deriving DecidableEq

/-- `name.endswith("/")` on a Python string. -/
def endsWithSlash (l : List Char) : Bool := l.getLast? == some '/'

/-- Python's `s.split("/", 1)`: the part before the first `/`, and the
remainder after it when a `/` occurs. -/
def splitFirstSlash : List Char → List Char × Option (List Char)
  | [] => ([], none)
  | c :: cs =>
    if c = '/' then ([], some cs)
    else
      let r := splitFirstSlash cs
      (c :: r.1, r.2)

/-- Python's `s.split("/")` (all occurrences, keeping empty pieces). -/
def splitSlash : List Char → List (List Char)
  | [] => [[]]
  | c :: cs =>
    let r := splitSlash cs
    if c = '/' then [] :: r
    else
      match r with
      | [] => [[c]]
      | a :: rest => (c :: a) :: rest

/-- The components of a `pathlib.Path` built from a relative POSIX path:
the slash-separated pieces with empty pieces dropped. -/
def pathComponents (l : List Char) : List (List Char) :=
  (splitSlash l).filter (fun c => !c.isEmpty)

/-- Joining path components back with `/`. -/
def joinSlash (l : List (List Char)) : List Char := List.intercalate ['/'] l

/-- `Path(name).relative_to(base)`: succeeds when `base`'s components lead
`name`'s components, returning the remaining components joined; raises
`ValueError` otherwise. -/
def relativeTo (name base : List Char) : Except String (List Char) :=
  let nc := pathComponents name
  let bc := pathComponents base
  if bc.isPrefixOf nc then Except.ok (joinSlash (nc.drop bc.length))
  else Except.error "relative_to: not a subpath"

namespace GcsLoader

/-- The `gs://` scheme marker. -/
def gsScheme : List Char := "gs://".data

/-- URI parsing in `download_model_from_gcs`
(`src/inference/fastapi-inference/gcs_loader.py` lines 27-33): require the
`gs://` scheme (else `ValueError`), strip it, and split once on `/` into
bucket name and object key part (empty when absent). -/
def parseGcsPath (u : List Char) : Except String (List Char × List Char) :=
  if gsScheme.isPrefixOf u then
    let s := splitFirstSlash (u.drop gsScheme.length)
    Except.ok (s.1, s.2.getD [])
  else Except.error "Invalid GCS path"

/-- Prefix normalization (lines 36-37): a non-empty key part that does not
end in `/` gets one appended before listing. -/
def normalizePfx (p : List Char) : List Char :=
  if p ≠ [] ∧ endsWithSlash p = false then p ++ ['/'] else p

/-- `download_model_from_gcs` from
`src/inference/fastapi-inference/gcs_loader.py`.  `world` maps a bucket name
to that bucket's objects.  Every object whose name carries the normalized
prefix is listed; directory markers (names ending in `/`) are skipped; each
remaining object is downloaded to `local_dir` at the path obtained by
dropping the prefix from the object name (`blob.name[len(prefix):]`).  The
result pairs the returned directory with the set of files written to disk. -/
def download_model_from_gcs (world : List Char → List Blob)
    (gcs_path local_dir : List Char) :
    Except String (List Char × List (List Char × String)) :=
  match parseGcsPath gcs_path with
  | Except.error e => Except.error e
  | Except.ok bp =>
    let pfx := normalizePfx bp.2
    let blobs := (world bp.1).filter (fun bl => pfx.isPrefixOf bl.name)
    let files := (blobs.filter (fun bl => !endsWithSlash bl.name)).map
      (fun bl => (local_dir ++ '/' :: bl.name.drop pfx.length, bl.content))
    Except.ok (local_dir, files)

end GcsLoader

namespace InferenceUtils

/-- Errors raised by `src/inference/utils.py`. -/
inductive UtilsError where
  | fileNotFound (path : List Char)
  | valueError (msg : String)
deriving DecidableEq

/-- `download_model_from_gcs` from `src/inference/utils.py` (lines 14-46):
list every object under `model_path`, skip names ending in `/`, and write
each remaining object to `local_dir / Path(blob.name).relative_to(model_path)`;
return the local directory (paired here with the files written). -/
def download_model_from_gcs (bucket : List Blob) (model_path local_dir : List Char) :
    Except UtilsError (List Char × List (List Char × String)) := do
  let blobs := bucket.filter (fun bl => model_path.isPrefixOf bl.name)
  let files ← (blobs.filter (fun bl => !endsWithSlash bl.name)).mapM (fun bl => do
    match relativeTo bl.name model_path with
    | Except.error e => Except.error (UtilsError.valueError e)
    | Except.ok rel => pure (local_dir ++ '/' :: rel, bl.content))
  pure (local_dir, files)

/-- The file name `load_model` requires. -/
def modelJsonName : List Char := "model.json".data

/-- `load_model` from `src/inference/utils.py` (lines 49-70): the directory
(given as the files present in it) must contain `model_dir/model.json`, else
`FileNotFoundError`; otherwise the serialized ensemble stored in that file is
loaded and returned (the boosted-tree library's deserialization is external,
so a file's content stands for the ensemble it encodes). -/
def load_model {α : Type} (model_dir : List Char) (files : List (List Char × α)) :
    Except UtilsError α :=
  let model_path := model_dir ++ '/' :: modelJsonName
  match files.find? (fun f => f.1 == model_path) with
  | some f => Except.ok f.2
  | none => Except.error (UtilsError.fileNotFound model_path)

end InferenceUtils

/-! ## The standalone registry-pull publisher (`src/scripts/upload_model_to_gcs.py`) -/

namespace UploadScript

/-- `upload_model_to_gcs` (lines 14-48): download the registered model's
artifact files (relative path and content) from the registry; on success,
upload every file to the blob name `f"{gcs_path}/{relative_path}"` in the
bucket.  `registry` stands for `mlflow.artifacts.download_artifacts`, which
may raise; its failure propagates out of the function. -/
def upload_model_to_gcs (registry : String → Except String (List (String × String)))
    (model_uri bucket_name gcs_path : String) :
    Except String (String × List (String × String)) :=
  match registry model_uri with
  | Except.error e => Except.error e
  | Except.ok files =>
    Except.ok (bucket_name, files.map (fun f => (gcs_path ++ "/" ++ f.1, f.2)))

/-- The URI tried first by the standalone entry point. -/
def productionUri : String := "models:/churn-prediction-model/Production"

/-- The URI used for the single retry. -/
def latestUri : String := "models:/churn-prediction-model/latest"

/-- Bucket resolved from the environment (line 53). -/
def envBucket (env : String → Option String) : String :=
  (env "GCS_BUCKET_NAME").getD "lily-demo-ml-mlflow"

/-- Destination path resolved from the environment (line 54). -/
def envPath (env : String → Option String) : String :=
  (env "GCS_MODEL_PATH").getD "models/churn-prediction-model"

/-- The `__main__` block (lines 51-70): try the Production-stage URI; if that
raises anything, retry exactly once with the `latest` URI against the same
bucket and path.  The first component records the URIs attempted in order. -/
def mainScript (env : String → Option String)
    (registry : String → Except String (List (String × String))) :
    List String × Except String (String × List (String × String)) :=
  let bucket := envBucket env
  let gcs_path := envPath env
  match upload_model_to_gcs registry productionUri bucket gcs_path with
  | Except.ok r => ([productionUri], Except.ok r)
  | Except.error _ =>
    ([productionUri, latestUri], upload_model_to_gcs registry latestUri bucket gcs_path)

end UploadScript

/-! ## The neural-network trainer's feature scaling (`src/eda/pytorch_trainer.py`) -/

namespace PytorchTrainer

/-- A standardized feature value `(x - mean) / sqrt(variance)`, kept in the
exact form (centered numerator, variance) so the transform stays rational. -/
structure Standardized where
  centered : ℚ
  variance : ℚ
deriving DecidableEq

/-- The fitted parameters of a `StandardScaler`: per-feature mean and
(population) variance estimated from the data it was fit on. -/
structure StandardScaler where
  mean : List ℚ
  var : List ℚ
deriving DecidableEq

/-- Mean of one feature column. -/
def colMean (col : List ℚ) : ℚ := col.sum / col.length

/-- Population variance of one feature column (the scaling library's
default). -/
def colVar (col : List ℚ) : ℚ :=
  ((col.map (fun x => (x - colMean col) ^ 2)).sum) / col.length

/-- `StandardScaler.fit`: estimate per-feature mean and variance from the
rows of `X` (one inner list per row). -/
def StandardScaler.fit (X : List (List ℚ)) : StandardScaler :=
  { mean := X.transpose.map colMean
    var := X.transpose.map colVar }

/-- `StandardScaler.transform`: apply the already-fitted parameters to each
row; the scaler itself is not modified. -/
def StandardScaler.transform (s : StandardScaler) (X : List (List ℚ)) :
    List (List Standardized) :=
  X.map (fun row =>
    (row.zip (s.mean.zip s.var)).map (fun p =>
      { centered := p.1 - p.2.1, variance := p.2.2 }))

/-- `StandardScaler.fit_transform`: fit on `X`, then transform `X` with the
parameters just fitted. -/
def StandardScaler.fit_transform (X : List (List ℚ)) :
    StandardScaler × List (List Standardized) :=
  let s := StandardScaler.fit X
  (s, s.transform X)

/-- `train_model` (`src/eda/pytorch_trainer.py` lines 34-75).  The scaler is
fit on the training features only (`scaler.fit_transform(X_train)`), and the
validation features are transformed with that fitted scaler
(`scaler.transform(X_val)`), never refit.  The epoch loop (tensors, Adam,
BCE loss) consumes the scaled data through the external tensor library;
it is abstracted as `trainLoop`, which receives exactly what the source
feeds it: scaled train features, train labels, scaled validation features,
validation labels, the epoch budget, and the initial model.  The function
returns the trained model and the scaler, as the source does. -/
def train_model {M : Type} (trainLoop : List (List Standardized) → List ℚ →
      List (List Standardized) → List ℚ → ℕ → M → M)
    (model : M) (X_train : List (List ℚ)) (y_train : List ℚ)
    (X_val : List (List ℚ)) (y_val : List ℚ) (epochs : ℕ) :
    M × StandardScaler :=
  let fitted := StandardScaler.fit_transform X_train
  let scaler := fitted.1
  let X_train_scaled := fitted.2
  let X_val_scaled := scaler.transform X_val
  (trainLoop X_train_scaled y_train X_val_scaled y_val epochs model, scaler)

end PytorchTrainer

/-! ## Helper lemmas about path strings -/

lemma isPrefixOf_self_append (l r : List Char) : l.isPrefixOf (l ++ r) = true := by
  induction l with
  | nil => simp [List.isPrefixOf]
  | cons c cs ih => simp [List.isPrefixOf, ih]

lemma exists_of_isPrefixOf {l m : List Char} (h : l.isPrefixOf m = true) :
    ∃ t, m = l ++ t := by
  induction l generalizing m with
  | nil => exact ⟨m, rfl⟩
  | cons c cs ih =>
    cases m with
    | nil => simp [List.isPrefixOf] at h
    | cons d ds =>
      simp only [List.isPrefixOf, Bool.and_eq_true, beq_iff_eq] at h
      obtain ⟨t, ht⟩ := ih h.2
      exact ⟨t, by simp [h.1, ht]⟩

lemma splitFirstSlash_no_slash (b p : List Char) (hb : '/' ∉ b) :
    splitFirstSlash (b ++ '/' :: p) = (b, some p) := by
  induction b with
  | nil => simp [splitFirstSlash]
  | cons c cs ih =>
    have hc : ¬ c = '/' := fun h => hb (by simp [h])
    have hcs : '/' ∉ cs := fun h => hb (List.mem_cons_of_mem _ h)
    simp [splitFirstSlash, hc, ih hcs]

lemma splitSlash_ne_nil (l : List Char) : splitSlash l ≠ [] := by
  cases l with
  | nil => simp [splitSlash]
  | cons c cs =>
    by_cases hc : c = '/'
    · simp [splitSlash, hc]
    · simp only [splitSlash, if_neg hc]
      rcases h : splitSlash cs with _ | ⟨a, rest⟩ <;> simp

lemma splitSlash_append (a b : List Char) :
    splitSlash (a ++ '/' :: b) = splitSlash a ++ splitSlash b := by
  induction a with
  | nil => simp [splitSlash]
  | cons c cs ih =>
    by_cases hc : c = '/'
    · simp [splitSlash, hc, ih]
    · rcases hcs : splitSlash cs with _ | ⟨a0, rest⟩
      · exact absurd hcs (splitSlash_ne_nil cs)
      · simp [splitSlash, hc, ih, hcs]

lemma pathComponents_nil : pathComponents [] = [] := rfl

lemma pathComponents_append (a b : List Char) :
    pathComponents (a ++ '/' :: b) = pathComponents a ++ pathComponents b := by
  simp [pathComponents, splitSlash_append, List.filter_append]

lemma endsWithSlash_concat (p : List Char) : endsWithSlash (p ++ ['/']) = true := by
  simp [endsWithSlash, List.getLast?_concat]

lemma mapM_eq_ok_map {α β : Type} {ε : Type} (f : α → Except ε β) (g : α → β)
    (l : List α) (h : ∀ x ∈ l, f x = Except.ok (g x)) :
    l.mapM f = Except.ok (l.map g) := by
  induction l with
  | nil => rfl
  | cons a t ih =>
    rw [List.mapM_cons, h a (List.mem_cons_self a t),
      ih (fun x hx => h x (List.mem_cons_of_mem _ hx))]
    rfl

namespace GcsLoader

lemma parseGcsPath_ok (b p : List Char) (hb : '/' ∉ b) :
    parseGcsPath (gsScheme ++ b ++ '/' :: p) = Except.ok (b, p) := by
  have hpre : gsScheme.isPrefixOf (gsScheme ++ b ++ '/' :: p) = true := by
    rw [List.append_assoc]
    exact isPrefixOf_self_append gsScheme (b ++ '/' :: p)
  have hdrop : (gsScheme ++ b ++ '/' :: p).drop gsScheme.length = b ++ '/' :: p := by
    rw [List.append_assoc]
    exact List.drop_left gsScheme (b ++ '/' :: p)
  simp [parseGcsPath, hpre, hdrop, splitFirstSlash_no_slash b p hb]

lemma normalizePfx_of_endsWithSlash (p : List Char) (h : endsWithSlash p = true) :
    normalizePfx p = p := by
  simp [normalizePfx, h]

lemma normalizePfx_append_slash (p : List Char) (hne : p ≠ [])
    (h : endsWithSlash p = false) :
    normalizePfx p = p ++ ['/'] := by
  simp [normalizePfx, hne, h]

end GcsLoader

/-! ## Concrete fixtures -/

/-- The bucket of testable property 9: a directory marker and two real
objects under `models/v1/`. -/
def bucketEx : List Blob :=
  [{ name := "models/v1/".data, content := "MARKER" },
   { name := "models/v1/model.json".data, content := "MODEL" },
   { name := "models/v1/meta/info.txt".data, content := "INFO" }]

/-- A one-bucket object store for the generic loader. -/
def worldEx : List Char → List Blob :=
  fun b => if b = "demo-bucket".data then bucketEx else []

/-- A loaded ensemble that scores every row at probability 1/2. -/
def constBooster : Booster where
  score := fun _ => Except.ok (1/2)
  score_range := by
    intro x p h
    injection h with h1
    constructor <;> rw [← h1] <;> norm_num

/-- The service after a successful startup model load. -/
def loadedState : ServerState :=
  { model := some constBooster, model_version := some "churn-prediction-model" }

/-- The first sample row of the manual test script (`test_api.py`). -/
def sampleBody : Json :=
  Json.obj
    [("f_0", Json.num (1/2)), ("f_1", Json.num (3/10)), ("f_2", Json.num (4/5)),
     ("f_3", Json.num (1/5)), ("f_4", Json.num (3/5)),
     ("months_since_signup", Json.num 12), ("calendar_month", Json.num 6),
     ("signup_month", Json.num 6), ("is_first_month", Json.num 0)]

/-- The second sample row of the manual test script. -/
def sampleBody2 : Json :=
  Json.obj
    [("f_0", Json.num (1/5)), ("f_1", Json.num (7/10)), ("f_2", Json.num (2/5)),
     ("f_3", Json.num (9/10)), ("f_4", Json.num (3/10)),
     ("months_since_signup", Json.num 3), ("calendar_month", Json.num 3),
     ("signup_month", Json.num 12), ("is_first_month", Json.num 1)]

/-- The validated form of `sampleBody`. -/
def sampleInput : PredictionInput :=
  { f_0 := 1/2, f_1 := 3/10, f_2 := 4/5, f_3 := 1/5, f_4 := 3/5,
    months_since_signup := 12, calendar_month := 6, signup_month := 6,
    is_first_month := 0 }

/-- The validated form of `sampleBody2`. -/
def sampleInput2 : PredictionInput :=
  { f_0 := 1/5, f_1 := 7/10, f_2 := 2/5, f_3 := 9/10, f_4 := 3/10,
    months_since_signup := 3, calendar_month := 3, signup_month := 12,
    is_first_month := 1 }

/-! ## Claim theorems -/

/-- C4: `load_config` succeeds on the data section only if `test_frac` and
`val_frac` each lie strictly in (0,1), neither exceeds 0.5, and their sum is
below 1.0; any configuration with `test_frac + val_frac >= 1.0` or with
`val_frac = 0.6` fails, and `test_frac = 0.15, val_frac = 0.15` (rest valid)
succeeds. -/
theorem load_config_split_fraction_spec (test_frac val_frac : ℚ) (random_state : ℤ) :
    (TrainerValidation.configDataOk test_frac val_frac random_state = true ↔
      (0 < test_frac ∧ test_frac < 1 ∧ test_frac ≤ 1/2 ∧
       0 < val_frac ∧ val_frac < 1 ∧ val_frac ≤ 1/2 ∧
       0 ≤ random_state ∧ test_frac + val_frac < 1)) ∧
    (1 ≤ test_frac + val_frac →
      TrainerValidation.configDataOk test_frac val_frac random_state = false) ∧
    (TrainerValidation.configDataOk test_frac (3/5) random_state = false) ∧
    (TrainerValidation.configDataOk (3/20) (3/20) 0 = true) := by
  have hiff : TrainerValidation.configDataOk test_frac val_frac random_state = true ↔
      (0 < test_frac ∧ test_frac < 1 ∧ test_frac ≤ 1/2 ∧
       0 < val_frac ∧ val_frac < 1 ∧ val_frac ≤ 1/2 ∧
       0 ≤ random_state ∧ test_frac + val_frac < 1) := by
    unfold TrainerValidation.configDataOk TrainerValidation.dataConfigOk
      TrainerValidation.fractionFieldOk TrainerValidation.validate_fraction
      TrainerValidation.validate_data_splits
    simp only [Bool.and_eq_true, decide_eq_true_eq, Bool.not_eq_true',
      decide_eq_false_iff_not, not_lt]
    tauto
  refine ⟨hiff, ?_, ?_, ?_⟩
  · intro hsum
    cases hC : TrainerValidation.configDataOk test_frac val_frac random_state with
    | false => rfl
    | true =>
      exfalso
      have h := hiff.mp hC
      linarith [h.2.2.2.2.2.2.2]
  · have h35 : TrainerValidation.validate_fraction (3/5) = false := by
      simp [TrainerValidation.validate_fraction]
      norm_num
    simp [TrainerValidation.configDataOk, TrainerValidation.dataConfigOk, h35]
  · norm_num [TrainerValidation.configDataOk, TrainerValidation.dataConfigOk,
      TrainerValidation.fractionFieldOk, TrainerValidation.validate_fraction,
      TrainerValidation.validate_data_splits]

/-- Witness for C4: a configuration with `test_frac + val_frac = 1` is
rejected. -/
theorem load_config_split_fraction_spec_witness :
    TrainerValidation.configDataOk (1/2) (1/2) 0 = false :=
  (load_config_split_fraction_spec (1/2) (1/2) 0).2.1 (by norm_num)

/-- C8: the neural-network trainer's scaler parameters depend only on the
training partition — two runs sharing `X_train` but differing in validation
data fit identical scalers, and the fitted scaler is exactly
`StandardScaler.fit X_train` (validation data is only transformed, never
refit). -/
theorem scaler_fit_only_on_train {M : Type}
    (trainLoop : List (List PytorchTrainer.Standardized) → List ℚ →
      List (List PytorchTrainer.Standardized) → List ℚ → ℕ → M → M)
    (model : M) (X_train : List (List ℚ)) (y_train : List ℚ)
    (X_val : List (List ℚ)) (y_val : List ℚ)
    (X_val' : List (List ℚ)) (y_val' : List ℚ) (epochs : ℕ) :
    (PytorchTrainer.train_model trainLoop model X_train y_train X_val y_val epochs).2 =
      (PytorchTrainer.train_model trainLoop model X_train y_train X_val' y_val' epochs).2 ∧
    (PytorchTrainer.train_model trainLoop model X_train y_train X_val y_val epochs).2 =
      PytorchTrainer.StandardScaler.fit X_train :=
  ⟨rfl, rfl⟩

/-- C7: invoked standalone, the publisher first tries the Production-stage
URI; it retries exactly once, with the `latest` URI against the same bucket
and path, if and only if the first attempt raises; it never makes a third
attempt. -/
theorem upload_script_fallback_spec (env : String → Option String)
    (registry : String → Except String (List (String × String))) :
    ((UploadScript.mainScript env registry).1.head? = some UploadScript.productionUri) ∧
    ((UploadScript.mainScript env registry).1.length ≤ 2) ∧
    (∀ r, UploadScript.upload_model_to_gcs registry UploadScript.productionUri
        (UploadScript.envBucket env) (UploadScript.envPath env) = Except.ok r →
      UploadScript.mainScript env registry = ([UploadScript.productionUri], Except.ok r)) ∧
    (∀ e, UploadScript.upload_model_to_gcs registry UploadScript.productionUri
        (UploadScript.envBucket env) (UploadScript.envPath env) = Except.error e →
      UploadScript.mainScript env registry =
        ([UploadScript.productionUri, UploadScript.latestUri],
         UploadScript.upload_model_to_gcs registry UploadScript.latestUri
           (UploadScript.envBucket env) (UploadScript.envPath env))) := by
  rcases h : UploadScript.upload_model_to_gcs registry UploadScript.productionUri
      (UploadScript.envBucket env) (UploadScript.envPath env) with e | r <;>
    refine ⟨?_, ?_, ?_, ?_⟩ <;> simp [UploadScript.mainScript, h]

/-- A registry with no Production stage for the registered model, but a
latest version. -/
def registryEx : String → Except String (List (String × String)) :=
  fun uri =>
    if uri = UploadScript.latestUri then Except.ok [("model.json", "ENSEMBLE")]
    else Except.error "RESOURCE_DOES_NOT_EXIST"

/-- An empty environment: the publisher falls back to its defaults. -/
def envEx : String → Option String := fun _ => none

/-- Witness for C7: with no Production stage, the script attempts Production
then retries once with latest against the same bucket and path. -/
theorem upload_script_fallback_spec_witness :
    UploadScript.mainScript envEx registryEx =
      ([UploadScript.productionUri, UploadScript.latestUri],
       UploadScript.upload_model_to_gcs registryEx UploadScript.latestUri
         (UploadScript.envBucket envEx) (UploadScript.envPath envEx)) :=
  (upload_script_fallback_spec envEx registryEx).2.2.2 "RESOURCE_DOES_NOT_EXIST" rfl

/-- C6: `load_model` fails with `FileNotFoundError` on any directory without
a `model.json` file, and loads and returns the ensemble stored in
`model.json` when the file is present. -/
theorem load_model_spec {α : Type} (model_dir : List Char) (files : List (List Char × α)) :
    ((∀ f ∈ files, f.1 ≠ model_dir ++ '/' :: InferenceUtils.modelJsonName) →
      InferenceUtils.load_model model_dir files =
        Except.error (InferenceUtils.UtilsError.fileNotFound
          (model_dir ++ '/' :: InferenceUtils.modelJsonName))) ∧
    ((∃ f ∈ files, f.1 = model_dir ++ '/' :: InferenceUtils.modelJsonName) →
      ∃ c, InferenceUtils.load_model model_dir files = Except.ok c ∧
        (model_dir ++ '/' :: InferenceUtils.modelJsonName, c) ∈ files) := by
  constructor
  · intro h
    have hfind : files.find?
        (fun f => f.1 == model_dir ++ '/' :: InferenceUtils.modelJsonName) = none := by
      rw [List.find?_eq_none]
      intro f hf
      simpa using h f hf
    simp [InferenceUtils.load_model, hfind]
  · intro h
    rcases hfind : files.find?
        (fun f => f.1 == model_dir ++ '/' :: InferenceUtils.modelJsonName) with _ | f
    · exfalso
      obtain ⟨f, hf, hfe⟩ := h
      exact List.find?_eq_none.mp hfind f hf (by simp [hfe])
    · have hf1 : f.1 = model_dir ++ '/' :: InferenceUtils.modelJsonName := by
        simpa using List.find?_some hfind
      have hf2 := List.mem_of_find?_eq_some hfind
      refine ⟨f.2, ?_, ?_⟩
      · simp [InferenceUtils.load_model, hfind]
      · rw [← hf1]
        simpa using hf2

/-- Witness for C6: an empty directory makes `load_model` fail with
`FileNotFoundError`. -/
theorem load_model_spec_witness :
    InferenceUtils.load_model "model".data ([] : List (List Char × String)) =
      Except.error (InferenceUtils.UtilsError.fileNotFound
        ("model".data ++ '/' :: InferenceUtils.modelJsonName)) :=
  (load_model_spec "model".data []).1 (by simp)

/-- C10: when the bucket stores nothing under `model_path`, the boosted-tree
`download_model_from_gcs` raises no error — it downloads nothing and returns
`local_dir` — and the missing artifact is only detected afterwards, by
`load_model` failing with `FileNotFoundError` on the absent `model.json`. -/
theorem empty_model_path_detected_at_load (bucket : List Blob)
    (model_path local_dir : List Char)
    (h : ∀ bl ∈ bucket, model_path.isPrefixOf bl.name = false) :
    InferenceUtils.download_model_from_gcs bucket model_path local_dir =
      Except.ok (local_dir, []) ∧
    InferenceUtils.load_model local_dir ([] : List (List Char × String)) =
      Except.error (InferenceUtils.UtilsError.fileNotFound
        (local_dir ++ '/' :: InferenceUtils.modelJsonName)) := by
  have hfil : bucket.filter (fun bl => model_path.isPrefixOf bl.name) = [] := by
    rw [List.filter_eq_nil_iff]
    intro bl hbl
    simp [h bl hbl]
  constructor
  · unfold InferenceUtils.download_model_from_gcs
    rw [hfil]
    rfl
  · simp [InferenceUtils.load_model]

/-- Witness for C10: a prefix under which the example bucket stores nothing
downloads zero files and then fails at load time. -/
theorem empty_model_path_detected_at_load_witness :
    InferenceUtils.download_model_from_gcs bucketEx "absent/".data "model".data =
      Except.ok ("model".data, []) ∧
    InferenceUtils.load_model "model".data ([] : List (List Char × String)) =
      Except.error (InferenceUtils.UtilsError.fileNotFound
        ("model".data ++ '/' :: InferenceUtils.modelJsonName)) :=
  empty_model_path_detected_at_load bucketEx "absent/".data "model".data (by decide)

/-- C5: both `download_model_from_gcs` variants download exactly the objects
under the prefix whose names do not end in `/` (directory markers skipped),
each to the local path mirroring the object's path relative to the prefix,
returning the local directory; in particular, on a bucket holding
`models/v1/`, `models/v1/model.json` and `models/v1/meta/info.txt`, prefix
`models/v1/` yields exactly `<local_dir>/model.json` and
`<local_dir>/meta/info.txt`. -/
theorem download_model_from_gcs_spec :
    (∀ (world : List Char → List Blob) (b p d : List Char),
      '/' ∉ b → p ≠ [] → endsWithSlash p = true →
      GcsLoader.download_model_from_gcs world (GcsLoader.gsScheme ++ b ++ '/' :: p) d =
        Except.ok (d, ((world b).filter
            (fun bl => p.isPrefixOf bl.name && !endsWithSlash bl.name)).map
          (fun bl => (d ++ '/' :: bl.name.drop p.length, bl.content)))) ∧
    (∀ (bucket : List Blob) (q d : List Char),
      InferenceUtils.download_model_from_gcs bucket (q ++ ['/']) d =
        Except.ok (d, (bucket.filter
            (fun bl => (q ++ ['/']).isPrefixOf bl.name && !endsWithSlash bl.name)).map
          (fun bl =>
            (d ++ '/' :: joinSlash (pathComponents (bl.name.drop (q.length + 1))),
             bl.content)))) ∧
    (GcsLoader.download_model_from_gcs worldEx "gs://demo-bucket/models/v1/".data
        "local".data =
      Except.ok ("local".data,
        [("local/model.json".data, "MODEL"), ("local/meta/info.txt".data, "INFO")])) ∧
    (InferenceUtils.download_model_from_gcs bucketEx "models/v1/".data "local".data =
      Except.ok ("local".data,
        [("local/model.json".data, "MODEL"), ("local/meta/info.txt".data, "INFO")])) := by
  refine ⟨?_, ?_, ?_, ?_⟩
  · intro world b p d hb hne hslash
    unfold GcsLoader.download_model_from_gcs
    rw [GcsLoader.parseGcsPath_ok b p hb]
    dsimp only
    rw [GcsLoader.normalizePfx_of_endsWithSlash p hslash]
    simp [List.filter_filter, Bool.and_comm]
  · intro bucket q d
    have hstep : ∀ bl ∈ (bucket.filter
        (fun bl => (q ++ ['/']).isPrefixOf bl.name)).filter
          (fun bl => !endsWithSlash bl.name),
        (match relativeTo bl.name (q ++ ['/']) with
          | Except.error e => Except.error (InferenceUtils.UtilsError.valueError e)
          | Except.ok rel =>
            pure (d ++ '/' :: rel, bl.content) :
            Except InferenceUtils.UtilsError (List Char × String)) =
        Except.ok
          (d ++ '/' :: joinSlash (pathComponents (bl.name.drop (q.length + 1))),
           bl.content) := by
      intro bl hbl
      have hmem := List.mem_filter.mp (List.mem_of_mem_filter hbl)
      obtain ⟨t, ht⟩ := exists_of_isPrefixOf hmem.2
      have hname : bl.name = q ++ '/' :: t := by simpa using ht
      have hbase : pathComponents (q ++ ['/']) = pathComponents q := by
        have h0 : q ++ ['/'] = q ++ '/' :: ([] : List Char) := rfl
        rw [h0, pathComponents_append, pathComponents_nil, List.append_nil]
      have hnc : pathComponents bl.name = pathComponents q ++ pathComponents t := by
        rw [hname, pathComponents_append]
      have hdrop : bl.name.drop (q.length + 1) = t := by
        have hlen : (q ++ ['/']).length = q.length + 1 := by simp
        rw [ht, ← hlen, List.drop_left]
      have hrel : relativeTo bl.name (q ++ ['/']) =
          Except.ok (joinSlash (pathComponents t)) := by
        unfold relativeTo
        dsimp only
        rw [hbase, hnc]
        simp [isPrefixOf_self_append, List.drop_left]
      rw [hrel, hdrop]
      rfl
    unfold InferenceUtils.download_model_from_gcs
    dsimp only
    rw [mapM_eq_ok_map
      (fun bl : Blob =>
        (match relativeTo bl.name (q ++ ['/']) with
          | Except.error e => Except.error (InferenceUtils.UtilsError.valueError e)
          | Except.ok rel => pure (d ++ '/' :: rel, bl.content) :
          Except InferenceUtils.UtilsError (List Char × String)))
      (fun bl : Blob =>
        (d ++ '/' :: joinSlash (pathComponents (bl.name.drop (q.length + 1))),
         bl.content))
      _ hstep]
    simp [List.filter_filter, Bool.and_comm]
  · rfl
  · rfl

/-- Witness for C5: the universal generic-loader conjunct applied to the
example bucket with prefix `models/v1/`. -/
theorem download_model_from_gcs_spec_witness :
    GcsLoader.download_model_from_gcs worldEx
        (GcsLoader.gsScheme ++ "demo-bucket".data ++ '/' :: "models/v1/".data)
        "local".data =
      Except.ok ("local".data, ((worldEx "demo-bucket".data).filter
          (fun bl => "models/v1/".data.isPrefixOf bl.name && !endsWithSlash bl.name)).map
        (fun bl =>
          ("local".data ++ '/' :: bl.name.drop "models/v1/".data.length, bl.content))) :=
  download_model_from_gcs_spec.1 worldEx "demo-bucket".data "models/v1/".data
    "local".data (by decide) (by decide) (by decide)

/-- C9: the generic loader treats `gs://<bucket>/<key>` and
`gs://<bucket>/<key>/` identically for a non-empty key: the key is
normalized to end in `/` before listing, so both spellings download the same
objects to the same local layout. -/
theorem gcs_uri_trailing_slash_invariant (world : List Char → List Blob)
    (b p d : List Char) (hb : '/' ∉ b) (hne : p ≠ []) (hp : endsWithSlash p = false) :
    GcsLoader.download_model_from_gcs world (GcsLoader.gsScheme ++ b ++ '/' :: p) d =
    GcsLoader.download_model_from_gcs world
      (GcsLoader.gsScheme ++ b ++ '/' :: (p ++ ['/'])) d := by
  unfold GcsLoader.download_model_from_gcs
  rw [GcsLoader.parseGcsPath_ok b p hb, GcsLoader.parseGcsPath_ok b (p ++ ['/']) hb]
  dsimp only
  rw [GcsLoader.normalizePfx_append_slash p hne hp,
    GcsLoader.normalizePfx_of_endsWithSlash (p ++ ['/']) (endsWithSlash_concat p)]

/-- Witness for C9: both spellings of the example model URI download the same
files. -/
theorem gcs_uri_trailing_slash_invariant_witness :
    GcsLoader.download_model_from_gcs worldEx
        (GcsLoader.gsScheme ++ "demo-bucket".data ++ '/' :: "models/v1".data)
        "local".data =
      GcsLoader.download_model_from_gcs worldEx
        (GcsLoader.gsScheme ++ "demo-bucket".data ++ '/' :: ("models/v1".data ++ ['/']))
        "local".data :=
  gcs_uri_trailing_slash_invariant worldEx "demo-bucket".data "models/v1".data
    "local".data (by decide) (by decide) (by decide)

/-- C2: a body with a missing required field, a wrong-typed field, or an
out-of-range field (`calendar_month`/`signup_month` outside [1,12],
`is_first_month` outside {0,1}) fails validation, and any body failing
validation gets 422 without the model being invoked; a valid body with no
model loaded gets exactly 503 (never 500); a valid body whose scoring raises
gets 500 carrying the error text. -/
theorem predict_error_handling (st : ServerState) (body : Json) :
    (validatePredictionInput body = none →
      Inference.predict st body = (ApiResponse.validationError, false)) ∧
    (∀ o k, body = Json.obj o → k ∈ requiredFields → getField o k = none →
      validatePredictionInput body = none) ∧
    (∀ o k s, body = Json.obj o → k ∈ requiredFields →
      getField o k = some (Json.str s) → validatePredictionInput body = none) ∧
    (∀ o n, body = Json.obj o → parseIntField o "calendar_month" = some n →
      (n < 1 ∨ 12 < n) → validatePredictionInput body = none) ∧
    (∀ o n, body = Json.obj o → parseIntField o "signup_month" = some n →
      (n < 1 ∨ 12 < n) → validatePredictionInput body = none) ∧
    (∀ o n, body = Json.obj o → parseIntField o "is_first_month" = some n →
      (n < 0 ∨ 1 < n) → validatePredictionInput body = none) ∧
    (∀ inp, validatePredictionInput body = some inp → st.model = none →
      Inference.predict st body = (ApiResponse.httpError 503 "Model not loaded", false)) ∧
    (∀ inp m e, validatePredictionInput body = some inp → st.model = some m →
      m.score inp = Except.error e →
      Inference.predict st body = (ApiResponse.httpError 500 e, true)) := by
  refine ⟨?_, ?_, ?_, ?_, ?_, ?_, ?_, ?_⟩
  · intro h
    simp [Inference.predict, h]
  · intro o k hbody hk hf
    subst hbody
    simp only [requiredFields, List.mem_cons, List.not_mem_nil, or_false] at hk
    rw [validatePredictionInput_obj_eq_none_iff]
    rcases hk with rfl | rfl | rfl | rfl | rfl | rfl | rfl | rfl | rfl <;>
      · intro hc
        simp [fieldsPresent, parseFloatField, parseIntField, parseBoundedIntField, hf] at hc
  · intro o k s hbody hk hf
    subst hbody
    simp only [requiredFields, List.mem_cons, List.not_mem_nil, or_false] at hk
    rw [validatePredictionInput_obj_eq_none_iff]
    rcases hk with rfl | rfl | rfl | rfl | rfl | rfl | rfl | rfl | rfl <;>
      · intro hc
        simp [fieldsPresent, parseFloatField, parseIntField, parseBoundedIntField, hf] at hc
  · intro o n hbody hpi hn
    subst hbody
    rw [validatePredictionInput_obj_eq_none_iff]
    intro hc
    have hno : ¬ ((1 : ℤ) ≤ n ∧ n ≤ 12) := by omega
    simp [fieldsPresent, parseBoundedIntField, hpi, hno] at hc
  · intro o n hbody hpi hn
    subst hbody
    rw [validatePredictionInput_obj_eq_none_iff]
    intro hc
    have hno : ¬ ((1 : ℤ) ≤ n ∧ n ≤ 12) := by omega
    simp [fieldsPresent, parseBoundedIntField, hpi, hno] at hc
  · intro o n hbody hpi hn
    subst hbody
    rw [validatePredictionInput_obj_eq_none_iff]
    intro hc
    have hno : ¬ ((0 : ℤ) ≤ n ∧ n ≤ 1) := by omega
    simp [fieldsPresent, parseBoundedIntField, hpi, hno] at hc
  · intro inp hval hm
    simp [Inference.predict, hval, hm]
  · intro inp m e hval hm hs
    simp [Inference.predict, hval, hm, hs]

/-- Witness for C2: a syntactically valid body against an unloaded model
returns 503 (not 500). -/
theorem predict_error_handling_witness :
    Inference.predict (ServerState.mk none none) sampleBody =
      (ApiResponse.httpError 503 "Model not loaded", false) :=
  (predict_error_handling (ServerState.mk none none) sampleBody).2.2.2.2.2.2.1
    sampleInput rfl rfl

/-- C3: a valid request served with a model loaded returns the scored
probability (which lies in [0,1]), the decision `1` exactly when the
probability is at least 0.5 and `0` otherwise, and the version label held in
process-wide state. -/
theorem predict_success_contract (st : ServerState) (m : Booster) (v : String)
    (body : Json) (inp : PredictionInput) (p : ℚ)
    (hm : st.model = some m) (hv : st.model_version = some v)
    (hval : validatePredictionInput body = some inp)
    (hs : m.score inp = Except.ok p) :
    Inference.predict st body =
      (ApiResponse.single
        { churn_probability := p
          churn_prediction := if (1 : ℚ)/2 ≤ p then 1 else 0
          model_version := v }, true) ∧
    0 ≤ p ∧ p ≤ 1 := by
  refine ⟨?_, m.score_range inp p hs⟩
  simp [Inference.predict, hval, hm, hs, hv]

/-- Witness for C3: the sample request against the loaded example model. -/
theorem predict_success_contract_witness :
    Inference.predict loadedState sampleBody =
      (ApiResponse.single
        { churn_probability := (1 : ℚ)/2
          churn_prediction := if (1 : ℚ)/2 ≤ (1 : ℚ)/2 then 1 else 0
          model_version := "churn-prediction-model" }, true) ∧
    0 ≤ (1 : ℚ)/2 ∧ (1 : ℚ)/2 ≤ 1 :=
  predict_success_contract loadedState constBooster "churn-prediction-model"
    sampleBody sampleInput (1/2) rfl rfl rfl rfl

/-- C1 (code bug at the failing input): `POST /predict/batch` is declared to
take a bare `List[PredictionInput]`, so with a model loaded the wrapped body
`{"instances": [...]}` — the very shape the repository's own manual test
sends and expects to succeed — is rejected with 422, while the same two
instances as a bare list return one response per input in input order. -/
theorem batch_endpoint_shape_code_bug :
    Inference.predict_batch loadedState
        (Json.obj [("instances", Json.arr [sampleBody, sampleBody2])]) =
      (ApiResponse.validationError, false) ∧
    (Inference.predict_batch loadedState
        (Json.obj [("instances", Json.arr [sampleBody, sampleBody2])])).1.status = 422 ∧
    Inference.predict_batch loadedState (Json.arr [sampleBody, sampleBody2]) =
      (ApiResponse.batch
        [{ churn_probability := (1 : ℚ)/2, churn_prediction := 1,
           model_version := "churn-prediction-model" },
         { churn_probability := (1 : ℚ)/2, churn_prediction := 1,
           model_version := "churn-prediction-model" }], true) := by
  refine ⟨rfl, rfl, ?_⟩
  have hbatch : validateBatchBody (Json.arr [sampleBody, sampleBody2]) =
      some [sampleInput, sampleInput2] := rfl
  have hscore : constBooster.scoreBatch [sampleInput, sampleInput2] =
      Except.ok [1/2, 1/2] := rfl
  simp only [Inference.predict_batch, hbatch, loadedState, hscore, List.map_cons,
    List.map_nil, Option.getD_some]
  norm_num
